import Mathlib

/-!
Shallow embedding of the gpt-review-action pipeline (src/index.js and the
TypeScript variant in src/unnamed/part_000), together with the invocation
input declarations of src/action.yml.  JavaScript strings are modelled as
Lean strings; the JS string operations the code uses (includes, startsWith,
trim, first-occurrence replace of a leading pattern) are modelled on the
underlying character lists.  External effects (the two git commands, the
chat-completion request, and the GitHub REST calls) are recorded in a call
trace; the results of the external services are supplied up front in an
environment record, so the whole run is a pure function from environment to
run result.
-/

namespace GptReview

/-- Whitespace test for the characters that JS String.prototype.trim removes
(restricted to the ASCII whitespace range, which is all that occurs here). -/
def isWs (c : Char) : Bool :=
  c == ' ' || c == '\t' || c == '\n' || c == '\r' || c == '\x0b' || c == '\x0c'

/-- Trim whitespace from both ends of a character list. -/
def trimChars (l : List Char) : List Char :=
  ((l.dropWhile isWs).reverse.dropWhile isWs).reverse

/-- Model of JS String.prototype.trim (as used by @actions/core getInput and
by generateFeedback). -/
def jsTrim (s : String) : String :=
  ⟨trimChars s.data⟩

/-- Does the pattern occur as a contiguous run inside the list? -/
def hasSub (pat : List Char) : List Char → Bool
  | [] => pat.isEmpty
  | c :: rest => pat.isPrefixOf (c :: rest) || hasSub pat rest

/-- Model of JS String.prototype.includes. -/
def jsIncludes (s pat : String) : Bool :=
  hasSub pat.data s.data

/-- Model of JS String.prototype.startsWith. -/
def jsStartsWith (s pat : String) : Bool :=
  pat.data.isPrefixOf s.data

/-- Model of `s.replace(pat, '')` for the case, checked by the caller, where
`s` starts with `pat`: JS replace with a string argument removes the first
occurrence, which is then the leading one. -/
def dropPrefixStr (s pat : String) : String :=
  ⟨s.data.drop pat.data.length⟩

/-- The fixed bot-comment marker token (src/index.js line 119,
src/unnamed/part_000 line 142). -/
def botMarker : String := "<!-- GPT-BOT-COMMENT -->"

/-- The fixed instruction preamble of the review prompt. -/
def instructionPreamble : String :=
  "Check this PR code, find logic issues not easily found by static analysis tools, order them by severity."

/-- The user prompt built by generateFeedback (part_000 line 55):
the instruction preamble, a blank line, the lead-in, the diff, and a final
newline. -/
def userPrompt (diff : String) : String :=
  instructionPreamble ++ "\n\nPlease review the following diff:\n" ++ diff ++ "\n"

/-- A pull-request issue comment as consumed by findExistingBotComment:
`user` and `body` may be absent (part_000 uses optional chaining on both). -/
structure Comment where
  id : Nat
  userType : Option String
  body : Option String
deriving DecidableEq, Repr

/-- The predicate of the `comments.find` callback (part_000 lines 122-124):
author of bot type and body containing the marker token; an absent user or
body makes the conjunct falsy. -/
def isBotMarkerComment (c : Comment) : Bool :=
  c.userType == some "Bot" &&
    (match c.body with
     | some b => jsIncludes b botMarker
     | none => false)

/-- findExistingBotComment: first comment of the listing that is
bot-authored and marker-tagged (part_000 lines 111-127). -/
def findExistingBotComment (comments : List Comment) : Option Comment :=
  comments.find? isBotMarkerComment

/-- A chat-completion message; `content` can be null. -/
structure ChatMessage where
  content : Option String
deriving DecidableEq, Repr

/-- One choice of a chat completion; part_000 reads `message` with optional
chaining, so it is modelled as possibly absent. -/
structure ChatChoice where
  message : Option ChatMessage
deriving DecidableEq, Repr

/-- A chat-completion response: its list of choices. -/
structure ChatCompletion where
  choices : List ChatChoice
deriving DecidableEq, Repr

/-- The JS error raised when `choices[0]` is undefined and `.message` is read
from it (part_000 line 64 indexes the array without optional chaining). -/
def typeErrorMsg : String := "Cannot read properties of undefined (reading 'message')"

/-- Extraction step of generateFeedback (part_000 line 64):
`chatCompletion.choices[0].message?.content?.trim() || ''`.  An empty choices
array makes the member access throw; an absent message or content, or
whitespace-only content, yields the empty string. -/
def generateFeedback (resp : ChatCompletion) : Except String String :=
  match resp.choices with
  | [] => .error typeErrorMsg
  | c :: _ => .ok (((c.message.bind ChatMessage.content).map jsTrim).getD "")

/-- One externally observable remote call of the pipeline. -/
inductive Call where
  | gitFetch
  | gitDiff
  | chatCompletion (model : String) (prompt : String)
  | pullsList (head : String)
  | listComments (prNumber : Nat)
  | updateComment (commentId : Nat) (body : String)
  | createComment (prNumber : Nat) (body : String)
deriving DecidableEq, Repr

/-- The comment body written by updateOrCreateBotComment (part_000 line 142):
the marker, a newline, and the feedback. -/
def commentBody (feedback : String) : String :=
  botMarker ++ "\n" ++ feedback

/-- updateOrCreateBotComment (part_000 lines 136-161): update the existing
bot comment by id when one was found, otherwise create a new comment on the
pull request; either way the body is `commentBody feedback`. -/
def updateOrCreateBotComment (prNumber : Nat) (botComment : Option Comment)
    (feedback : String) : List Call :=
  match botComment with
  | some c => [Call.updateComment c.id (commentBody feedback)]
  | none => [Call.createComment prNumber (commentBody feedback)]

/-- An open pull request as returned by the pulls listing. -/
structure PullRequest where
  number : Nat
deriving DecidableEq, Repr

/-- findOpenPullRequest (part_000 lines 74-95): the number of the first
listed open pull request, or none when the listing is empty. -/
def findOpenPullRequest (prs : List PullRequest) : Option Nat :=
  match prs with
  | [] => none
  | pr :: _ => some pr.number

/-- Model of @actions/core getInput for an optional input: the runner
substitutes the action.yml default when the workflow does not provide the
input, and getInput trims whitespace from the value it reads. -/
def getInputVal (provided : Option String) (actionDefault : String) : String :=
  jsTrim (provided.getD actionDefault)

/-- The model identifier used for the completion request (part_000 line 171,
`core.getInput('openai_model') || 'gpt-3.5-turbo'`, together with the
action.yml declaration `default: "gpt-4o-mini"` for openai_model). -/
def resolvedOpenaiModel (provided : Option String) : String :=
  let v := getInputVal provided "gpt-4o-mini"
  if v = "" then "gpt-3.5-turbo" else v

/-- Message of the error thrown for an invalid branch reference
(part_000 line 180); an undefined ref is interpolated as "undefined". -/
def refErrMsg (refStr : String) : String :=
  "GITHUB_REF is not a valid branch reference: " ++ refStr

/-- Rejection message of execAsync when `git fetch origin main` exits
non-zero. -/
def fetchFailMsg : String := "Command failed: git fetch origin main"

/-- Rejection message of execAsync when the diff command exits non-zero. -/
def diffFailMsg : String :=
  "Command failed: git diff --inter-hunk-context=1000 origin/main...HEAD"

/-- The catch-all handler wraps every error message (part_000 line 223). -/
def errWrap (msg : String) : String := "An error occurred: " ++ msg

/-- Warning logged when the diff command writes to stderr (part_000 line 27). -/
def diffStderrWarning (stderr : String) : String :=
  "Standard error while generating diff: " ++ stderr

/-- Warning logged by findOpenPullRequest when no PR matches (part_000 line 88). -/
def noPrWarning (branch : String) : String :=
  "No open PR found for branch '" ++ branch ++ "'."

/-- Warning logged by main when it has no usable PR number (part_000 line 201). -/
def cannotProceedWarning : String := "Cannot proceed without an open PR."

/-- Error thrown by @actions/core getInput for a missing required input. -/
def requiredInputMsg (name : String) : String :=
  "Input required and not supplied: " ++ name

/-- The declared output value for an empty diff (part_000 line 190). -/
def noDiffOutput : String := "No differences found."

/-- The fixed branch-reference path segment checked against GITHUB_REF. -/
def refsHeads : String := "refs/heads/"

/-- generateDiff (part_000 lines 23-30): on a zero exit the diff generator
returns the command's stdout together with the warning for any stderr text;
a non-zero exit makes execAsync reject, which aborts the caller. -/
def generateDiff (exitOk : Bool) (stdout stderr : String) :
    Except String (String × List String) :=
  if exitOk then
    .ok (stdout, if stderr = "" then [] else [diffStderrWarning stderr])
  else
    .error diffFailMsg

/-- The environment of one run: the invocation inputs declared in
src/action.yml, the GITHUB_REF of the triggering context, and the responses
of every external service the pipeline can consult. -/
structure Env where
  githubTokenInput : Option String
  openaiTokenInput : Option String
  openaiModelInput : Option String
  extraPromptInput : Option String
  ref : Option String
  owner : String
  fetchExitOk : Bool
  diffExitOk : Bool
  diffStdout : String
  diffStderr : String
  completion : ChatCompletion
  openPullRequests : List PullRequest
  comments : List Comment
deriving Repr

/-- The observable result of one run: the ordered remote-call trace, the
declared outputs, the warnings, and the failure status set by the top-level
catch handler. -/
structure RunResult where
  calls : List Call
  outputs : List (String × String)
  warnings : List String
  failed : Option String
deriving DecidableEq, Repr

/-- The part of main after the branch reference has been validated
(part_000 lines 184-211): fetch main, generate the diff, short-circuit on an
empty diff, request the completion, locate the pull request, and publish the
bot comment.  `branch` is the ref with the refs/heads/ segment removed and
`model` the resolved model identifier. -/
def mainAfterRef (env : Env) (model branch : String) : RunResult :=
  if env.fetchExitOk then
    match generateDiff env.diffExitOk env.diffStdout env.diffStderr with
    | .error msg => ⟨[Call.gitFetch, Call.gitDiff], [], [], some (errWrap msg)⟩
    | .ok (diff, warns) =>
      if diff = "" then
        ⟨[Call.gitFetch, Call.gitDiff], [("feedback", noDiffOutput)], warns, none⟩
      else
        let calls1 := [Call.gitFetch, Call.gitDiff,
          Call.chatCompletion model (userPrompt diff)]
        match generateFeedback env.completion with
        | .error msg => ⟨calls1, [], warns, some (errWrap msg)⟩
        | .ok feedback =>
          let calls2 := calls1 ++ [Call.pullsList (env.owner ++ ":" ++ branch)]
          match findOpenPullRequest env.openPullRequests with
          | none => ⟨calls2, [], warns ++ [noPrWarning branch, cannotProceedWarning], none⟩
          | some n =>
            if n = 0 then
              ⟨calls2, [], warns ++ [cannotProceedWarning], none⟩
            else
              ⟨calls2 ++ [Call.listComments n] ++
                 updateOrCreateBotComment n (findExistingBotComment env.comments) feedback,
               [], warns, none⟩
  else
    ⟨[Call.gitFetch], [], [], some (errWrap fetchFailMsg)⟩

/-- main (part_000 lines 166-225): read the required tokens and the model
input, validate GITHUB_REF before any remote call, then run the pipeline;
every thrown error is converted by the catch handler into a failed status
with the wrapped message. -/
def mainRun (env : Env) : RunResult :=
  if env.githubTokenInput.getD "" = "" then
    ⟨[], [], [], some (errWrap (requiredInputMsg "github_token"))⟩
  else if env.openaiTokenInput.getD "" = "" then
    ⟨[], [], [], some (errWrap (requiredInputMsg "openai_token"))⟩
  else
    let model := resolvedOpenaiModel env.openaiModelInput
    match env.ref with
    | none => ⟨[], [], [], some (errWrap (refErrMsg "undefined"))⟩
    | some r =>
      if jsStartsWith r refsHeads then
        mainAfterRef env model (dropPrefixStr r refsHeads)
      else
        ⟨[], [], [], some (errWrap (refErrMsg r))⟩

/-- Effect of one publish call on the pull request's comment list: an update
replaces the body of the comment carrying that id, a create appends a fresh
comment whose id and author type are chosen by the server. -/
def applyPublishCall (newId : Nat) (actorType : String) :
    List Comment → Call → List Comment
  | cs, Call.updateComment cid body =>
      cs.map (fun c => if c.id = cid then { c with body := some body } else c)
  | cs, Call.createComment _ body =>
      cs ++ [⟨newId, some actorType, some body⟩]
  | cs, _ => cs

/-- The comment list after the publish operation: the calls issued by
updateOrCreateBotComment applied to the listed comments. -/
def publishResult (comments : List Comment) (newId : Nat) (actorType : String)
    (prNumber : Nat) (feedback : String) : List Comment :=
  (updateOrCreateBotComment prNumber (findExistingBotComment comments) feedback).foldl
    (applyPublishCall newId actorType) comments

/-- Substring containment stated structurally. -/
def SubstringOf (pat s : String) : Prop :=
  ∃ pre post, s = pre ++ pat ++ post

/-! Helper lemmas. -/

/-- Two strings with the same character data are equal. -/
theorem strExt {s t : String} (h : s.data = t.data) : s = t := by
  cases s
  cases t
  exact congrArg String.mk h

/-- Appending strings concatenates their character data. -/
theorem dataAppend (s t : String) : (s ++ t).data = s.data ++ t.data := rfl

/-- String append is associative. -/
theorem strAppendAssoc (a b c : String) : a ++ b ++ c = a ++ (b ++ c) :=
  strExt (by simp [dataAppend, List.append_assoc])

/-- The empty string is a left identity of append. -/
theorem emptyAppend (s : String) : "" ++ s = s :=
  strExt (by simp [dataAppend])

/-- A successful find? splits the list into a match-free front, the found
element, and a tail. -/
theorem findDecomp {α : Type} (p : α → Bool) :
    ∀ (l : List α) (c : α), l.find? p = some c →
      ∃ pre post, l = pre ++ c :: post ∧ p c = true ∧ ∀ d ∈ pre, p d = false := by
  intro l
  induction l with
  | nil => intro c h; simp [List.find?] at h
  | cons a as ih =>
    intro c h
    by_cases hp : p a
    · rw [List.find?_cons_of_pos _ hp] at h
      obtain rfl : a = c := by injection h
      exact ⟨[], as, rfl, hp, by simp⟩
    · rw [List.find?_cons_of_neg _ hp] at h
      obtain ⟨pre, post, rfl, hc, hpre⟩ := ih c h
      refine ⟨a :: pre, post, rfl, hc, ?_⟩
      intro d hd
      rcases List.mem_cons.mp hd with rfl | hd
      · exact Bool.of_not_eq_true hp
      · exact hpre d hd

/-- A list of length at most one has at most one member. -/
theorem lengthLeOneEq {α : Type} {l : List α} (h : l.length ≤ 1) :
    ∀ a ∈ l, ∀ b ∈ l, a = b := by
  cases l with
  | nil => simp
  | cons x xs =>
    cases xs with
    | nil =>
      intro a ha b hb
      simp at ha hb
      rw [ha, hb]
    | cons y ys => simp at h

/-- In a list whose ids are pairwise distinct, at most one element carries a
given id. -/
theorem countIdLeOne (l : List Comment) (cid : Nat)
    (h : (l.map Comment.id).Nodup) :
    l.countP (fun e => e.id == cid) ≤ 1 := by
  have h1 : l.countP (fun e => e.id == cid) =
      (l.map Comment.id).countP (fun x => x == cid) := by
    rw [List.countP_map]
    rfl
  rw [h1]
  exact List.nodup_iff_count_le_one.mp h cid

/-! Concrete sample data used by the witnesses. -/

/-- A plain user comment without the marker. -/
def userC : Comment := ⟨3, some "User", some "hello"⟩

/-- A bot comment carrying the marker token. -/
def botC : Comment := ⟨5, some "Bot", some "<!-- GPT-BOT-COMMENT -->\nold text"⟩

/-! Claim theorems. -/

/-- Claim C2: when the comment list contains a bot-authored, marker-tagged
comment, publishing issues exactly one update call addressed at the id of
the first such comment, with the body fully replaced by the marker, a
newline, and the new feedback, and issues no create call. -/
theorem c2_update_first_bot_comment (comments : List Comment) (prNumber : Nat)
    (fb : String) (h : ∃ c ∈ comments, isBotMarkerComment c = true) :
    ∃ c pre post,
      comments = pre ++ c :: post ∧
      isBotMarkerComment c = true ∧
      (∀ d ∈ pre, isBotMarkerComment d = false) ∧
      updateOrCreateBotComment prNumber (findExistingBotComment comments) fb =
        [Call.updateComment c.id (botMarker ++ "\n" ++ fb)] := by
  obtain ⟨c0, hmem, hp⟩ := h
  have hsome : (comments.find? isBotMarkerComment).isSome :=
    List.find?_isSome.mpr ⟨c0, hmem, hp⟩
  obtain ⟨c, hc⟩ := Option.isSome_iff_exists.mp hsome
  obtain ⟨pre, post, hsplit, hpc, hpre⟩ := findDecomp isBotMarkerComment comments c hc
  refine ⟨c, pre, post, hsplit, hpc, hpre, ?_⟩
  simp [updateOrCreateBotComment, findExistingBotComment, hc, commentBody]

theorem c2_witness :
    ∃ c pre post,
      [userC, botC] = pre ++ c :: post ∧
      isBotMarkerComment c = true ∧
      (∀ d ∈ pre, isBotMarkerComment d = false) ∧
      updateOrCreateBotComment 7 (findExistingBotComment [userC, botC]) "new feedback" =
        [Call.updateComment c.id (botMarker ++ "\n" ++ "new feedback")] :=
  c2_update_first_bot_comment [userC, botC] 7 "new feedback"
    ⟨botC, by decide, by decide⟩

/-- Claim C3: when no listed comment is both bot-authored and marker-tagged,
publishing issues exactly one create call, whose body is the marker token,
a newline, and the feedback text. -/
theorem c3_create_when_no_match (comments : List Comment) (prNumber : Nat)
    (fb : String) (h : ∀ c ∈ comments, isBotMarkerComment c = false) :
    updateOrCreateBotComment prNumber (findExistingBotComment comments) fb =
      [Call.createComment prNumber (botMarker ++ "\n" ++ fb)] := by
  have hnone : findExistingBotComment comments = none := by
    rw [findExistingBotComment, List.find?_eq_none]
    intro x hx
    simp [h x hx]
  simp [updateOrCreateBotComment, hnone, commentBody]

theorem c3_witness :
    updateOrCreateBotComment 42 (findExistingBotComment [userC]) "Looks fine." =
      [Call.createComment 42 (botMarker ++ "\n" ++ "Looks fine.")] :=
  c3_create_when_no_match [userC] 42 "Looks fine." (by decide)

/-- Claim C4, counterexample: a completion response with no choices at all
carries no usable message content, yet the extraction throws (the member
access on the undefined first choice) instead of returning the empty
string. -/
theorem c4_counterexample :
    generateFeedback { choices := [] } = Except.error typeErrorMsg ∧
      generateFeedback { choices := [] } ≠ Except.ok "" := by
  constructor
  · rfl
  · intro h
    simp [generateFeedback] at h

/-- Claim C4, amended: for every completion response with at least one
choice, the review requester returns the whitespace-trimmed text of the
first choice's message, and returns the empty string rather than failing
when the first choice's message or its content is absent. -/
theorem c4_first_choice_feedback (resp : ChatCompletion) (c : ChatChoice)
    (hhead : resp.choices.head? = some c) :
    (∀ m s, c.message = some m → m.content = some s →
        generateFeedback resp = Except.ok (jsTrim s)) ∧
    ((c.message = none ∨ ∃ m, c.message = some m ∧ m.content = none) →
        generateFeedback resp = Except.ok "") := by
  cases resp with
  | mk choices =>
    cases choices with
    | nil => simp at hhead
    | cons a as =>
      have ha : a = c := by simpa using hhead
      subst ha
      constructor
      · intro m s hm hs
        simp [generateFeedback, hm, hs]
      · rintro (hm | ⟨m, hm, hc⟩)
        · simp [generateFeedback, hm]
        · simp [generateFeedback, hm, hc]

theorem c4_witness :
    generateFeedback { choices := [⟨some ⟨some "  Looks fine.  "⟩⟩] } =
      Except.ok (jsTrim "  Looks fine.  ") :=
  (c4_first_choice_feedback { choices := [⟨some ⟨some "  Looks fine.  "⟩⟩] }
    ⟨some ⟨some "  Looks fine.  "⟩⟩ rfl).1 ⟨some "  Looks fine.  "⟩
    "  Looks fine.  " rfl rfl

/-- Claim C7, counterexample: when the openai_model input is absent, the
runner substitutes the action.yml default, so the model used is
gpt-4o-mini, not gpt-3.5-turbo. -/
theorem c7_counterexample :
    resolvedOpenaiModel none = "gpt-4o-mini" ∧
      resolvedOpenaiModel none ≠ "gpt-3.5-turbo" := by
  constructor
  · decide
  · decide

/-- Claim C7, amended: when the openai_model input is supplied as an empty
(or whitespace-only, since getInput trims) string the completion request
falls back to gpt-3.5-turbo; when the input is absent the action.yml
default gpt-4o-mini applies; any other supplied value is used trimmed. -/
theorem c7_model_default (s : String) (h : jsTrim s ≠ "") :
    resolvedOpenaiModel (some "") = "gpt-3.5-turbo" ∧
      resolvedOpenaiModel none = "gpt-4o-mini" ∧
      resolvedOpenaiModel (some s) = jsTrim s := by
  refine ⟨by decide, by decide, ?_⟩
  simp [resolvedOpenaiModel, getInputVal, h]

theorem c7_witness :
    jsTrim "gpt-4o" ≠ "" ∧ resolvedOpenaiModel (some "gpt-4o") = jsTrim "gpt-4o" :=
  ⟨by decide, (c7_model_default "gpt-4o" (by decide)).2.2⟩

/-- Claim C8: for every non-empty diff, the prompt sent to the completion
request contains the diff text verbatim as a substring and contains the
fixed instruction preamble verbatim as a substring. -/
theorem c8_prompt_contains (diff : String) (h : diff ≠ "") :
    SubstringOf diff (userPrompt diff) ∧
      SubstringOf instructionPreamble (userPrompt diff) := by
  constructor
  · exact ⟨instructionPreamble ++ "\n\nPlease review the following diff:\n", "\n", rfl⟩
  · refine ⟨"", "\n\nPlease review the following diff:\n" ++ diff ++ "\n", ?_⟩
    rw [emptyAppend, userPrompt]
    rw [strAppendAssoc instructionPreamble "\n\nPlease review the following diff:\n" diff]
    rw [strAppendAssoc instructionPreamble
      ("\n\nPlease review the following diff:\n" ++ diff) "\n"]

theorem c8_witness :
    ("diff --git a/f b/f" ≠ "") ∧
      SubstringOf "diff --git a/f b/f" (userPrompt "diff --git a/f b/f") ∧
      SubstringOf instructionPreamble (userPrompt "diff --git a/f b/f") :=
  ⟨by decide,
    (c8_prompt_contains "diff --git a/f b/f" (by decide)).1,
    (c8_prompt_contains "diff --git a/f b/f" (by decide)).2⟩

/-- Claim C10: the declared extra_prompt input has no effect on the run:
two environments identical except for that input produce identical run
results (same call trace, hence same prompt, feedback and comment body, same
outputs, warnings, and status), because the program never reads it. -/
theorem c10_extra_prompt_no_effect (env : Env) (v w : Option String) :
    mainRun { env with extraPromptInput := v } =
      mainRun { env with extraPromptInput := w } := by
  cases env
  rfl

/-- Claim C1: when the diff command produces empty output, the run sets the
declared output feedback to exactly "No differences found." and returns
without any completion request, pulls listing, comment listing, or comment
creation or update: the only calls made are the git fetch and the git diff. -/
theorem c1_empty_diff_short_circuit (env : Env) (r : String)
    (ht1 : env.githubTokenInput.getD "" ≠ "")
    (ht2 : env.openaiTokenInput.getD "" ≠ "")
    (href : env.ref = some r)
    (hr : jsStartsWith r refsHeads = true)
    (hfetch : env.fetchExitOk = true)
    (hdiff : env.diffExitOk = true)
    (hempty : env.diffStdout = "") :
    (mainRun env).outputs = [("feedback", "No differences found.")] ∧
      (mainRun env).calls = [Call.gitFetch, Call.gitDiff] ∧
      (mainRun env).failed = none := by
  simp [mainRun, mainAfterRef, generateDiff, noDiffOutput,
    href, hr, hfetch, hdiff, hempty, ht1, ht2]

/-- An environment whose diff command prints nothing. -/
def envNoDiff : Env :=
  { githubTokenInput := some "ghtok", openaiTokenInput := some "oaitok",
    openaiModelInput := none, extraPromptInput := none,
    ref := some "refs/heads/feature-x", owner := "acme",
    fetchExitOk := true, diffExitOk := true, diffStdout := "", diffStderr := "",
    completion := { choices := [] }, openPullRequests := [], comments := [] }

theorem c1_witness :
    (mainRun envNoDiff).outputs = [("feedback", "No differences found.")] ∧
      (mainRun envNoDiff).calls = [Call.gitFetch, Call.gitDiff] ∧
      (mainRun envNoDiff).failed = none :=
  c1_empty_diff_short_circuit envNoDiff "refs/heads/feature-x"
    (by decide) (by decide) rfl (by decide) rfl rfl rfl

/-- Claim C5: when GITHUB_REF is absent or does not start with refs/heads/,
the run fails with the branch-reference error message attached and no
external call at all is made. -/
theorem c5_invalid_ref_fatal (env : Env)
    (ht1 : env.githubTokenInput.getD "" ≠ "")
    (ht2 : env.openaiTokenInput.getD "" ≠ "")
    (hbad : env.ref = none ∨
      ∃ r, env.ref = some r ∧ jsStartsWith r refsHeads = false) :
    (mainRun env).calls = [] ∧
      ∃ s, (mainRun env).failed = some (errWrap (refErrMsg s)) := by
  rcases hbad with h | ⟨r, hr, hs⟩
  · constructor
    · simp [mainRun, h, ht1, ht2]
    · exact ⟨"undefined", by simp [mainRun, h, ht1, ht2]⟩
  · constructor
    · simp [mainRun, hr, hs, ht1, ht2]
    · exact ⟨r, by simp [mainRun, hr, hs, ht1, ht2]⟩

/-- An environment triggered from a tag ref rather than a branch ref. -/
def envBadRef : Env :=
  { envNoDiff with ref := some "refs/tags/v1.0" }

theorem c5_witness :
    (mainRun envBadRef).calls = [] ∧
      ∃ s, (mainRun envBadRef).failed = some (errWrap (refErrMsg s)) :=
  c5_invalid_ref_fatal envBadRef (by decide) (by decide)
    (Or.inr ⟨"refs/tags/v1.0", rfl, by decide⟩)

/-- The extraction step only ever raises the undefined-member error. -/
theorem generateFeedbackErr {resp : ChatCompletion} {m : String}
    (h : generateFeedback resp = .error m) : m = typeErrorMsg := by
  cases resp with
  | mk cs =>
    cases cs with
    | nil =>
      rw [generateFeedback] at h
      injection h with h
      exact h.symm
    | cons a as =>
      rw [generateFeedback] at h
      exact absurd h (by simp)

/-- After a zero-exit diff with stderr text, every downstream branch keeps
the stderr warning and never reports the diff-command failure. -/
theorem mainAfterRefDiffOk (env : Env) (model branch : String)
    (hfetch : env.fetchExitOk = true) (hd : env.diffExitOk = true)
    (hstderr : env.diffStderr ≠ "") :
    diffStderrWarning env.diffStderr ∈ (mainAfterRef env model branch).warnings ∧
      (mainAfterRef env model branch).failed ≠ some (errWrap diffFailMsg) := by
  by_cases hds : env.diffStdout = ""
  · constructor <;>
      simp [mainAfterRef, generateDiff, hfetch, hd, hds, hstderr]
  · cases hgf : generateFeedback env.completion with
    | error msg =>
      have hm : msg = typeErrorMsg := generateFeedbackErr hgf
      subst hm
      constructor <;>
        simp [mainAfterRef, generateDiff, hfetch, hd, hds, hstderr, hgf,
          errWrap, typeErrorMsg, diffFailMsg]
    | ok fb =>
      cases hpr : env.openPullRequests with
      | nil =>
        constructor <;>
          simp [mainAfterRef, generateDiff, findOpenPullRequest,
            hfetch, hd, hds, hstderr, hgf, hpr]
      | cons pr tl =>
        by_cases hn : pr.number = 0
        · constructor <;>
            simp [mainAfterRef, generateDiff, findOpenPullRequest,
              hfetch, hd, hds, hstderr, hgf, hpr, hn]
        · constructor <;>
            simp [mainAfterRef, generateDiff, findOpenPullRequest,
              hfetch, hd, hds, hstderr, hgf, hpr, hn]

/-- Claim C9: when the diff command exits zero, the diff generator returns
the command's stdout, any stderr text only becomes a warning carried through
the rest of the run, and the run is never failed by the diff step; whereas a
non-zero exit of either git command is fatal, aborting the run right there. -/
theorem c9_diff_error_handling (env : Env) (r : String)
    (ht1 : env.githubTokenInput.getD "" ≠ "")
    (ht2 : env.openaiTokenInput.getD "" ≠ "")
    (href : env.ref = some r)
    (hr : jsStartsWith r refsHeads = true) :
    (env.diffExitOk = true →
       generateDiff env.diffExitOk env.diffStdout env.diffStderr =
         Except.ok (env.diffStdout,
           if env.diffStderr = "" then [] else [diffStderrWarning env.diffStderr]) ∧
       (env.fetchExitOk = true → env.diffStderr ≠ "" →
          diffStderrWarning env.diffStderr ∈ (mainRun env).warnings ∧
          (mainRun env).failed ≠ some (errWrap diffFailMsg))) ∧
    (env.fetchExitOk = false →
       (mainRun env).failed = some (errWrap fetchFailMsg) ∧
       (mainRun env).calls = [Call.gitFetch]) ∧
    (env.fetchExitOk = true → env.diffExitOk = false →
       (mainRun env).failed = some (errWrap diffFailMsg) ∧
       (mainRun env).calls = [Call.gitFetch, Call.gitDiff]) := by
  have hmain : mainRun env =
      mainAfterRef env (resolvedOpenaiModel env.openaiModelInput)
        (dropPrefixStr r refsHeads) := by
    simp [mainRun, href, hr, ht1, ht2]
  refine ⟨?_, ?_, ?_⟩
  · intro hd
    refine ⟨by simp [generateDiff, hd], ?_⟩
    intro hfetch hstderr
    rw [hmain]
    exact mainAfterRefDiffOk env _ _ hfetch hd hstderr
  · intro hfetch
    rw [hmain]
    constructor <;> simp [mainAfterRef, hfetch]
  · intro hfetch hd
    rw [hmain]
    constructor <;> simp [mainAfterRef, generateDiff, hfetch, hd]

/-- An environment whose diff command exits non-zero. -/
def envDiffFail : Env :=
  { envNoDiff with diffExitOk := false }

theorem c9_witness :
    (mainRun envDiffFail).failed = some (errWrap diffFailMsg) ∧
      (mainRun envDiffFail).calls = [Call.gitFetch, Call.gitDiff] :=
  (c9_diff_error_handling envDiffFail "refs/heads/feature-x"
    (by decide) (by decide) rfl (by decide)).2.2 rfl rfl

/-- Claim C6: publishing preserves the invariant that at most one
bot-authored, marker-tagged comment exists on the pull request: starting
from a comment list (with pairwise distinct ids) holding at most one such
comment, the list after the publish calls still holds at most one. -/
theorem c6_at_most_one_bot_comment (comments : List Comment) (newId : Nat)
    (actorType : String) (prNumber : Nat) (fb : String)
    (hids : (comments.map Comment.id).Nodup)
    (hinv : comments.countP isBotMarkerComment ≤ 1) :
    (publishResult comments newId actorType prNumber fb).countP
      isBotMarkerComment ≤ 1 := by
  rw [publishResult]
  cases hfind : findExistingBotComment comments with
  | none =>
    have hall : ∀ x ∈ comments, ¬ isBotMarkerComment x := by
      rw [findExistingBotComment] at hfind
      exact List.find?_eq_none.mp hfind
    simp only [updateOrCreateBotComment, List.foldl, applyPublishCall]
    rw [List.countP_append]
    have h0 : comments.countP isBotMarkerComment = 0 :=
      List.countP_eq_zero.mpr hall
    have h1 : List.countP isBotMarkerComment
        [⟨newId, some actorType, some (commentBody fb)⟩] ≤ 1 :=
      le_trans (List.countP_le_length isBotMarkerComment) (by simp)
    omega
  | some c =>
    rw [findExistingBotComment] at hfind
    have hpc : isBotMarkerComment c = true := List.find?_some hfind
    have hmem : c ∈ comments := List.mem_of_find?_eq_some hfind
    simp only [updateOrCreateBotComment, List.foldl, applyPublishCall]
    rw [List.countP_map]
    refine le_trans (List.countP_mono_left ?_) (countIdLeOne comments c.id hids)
    intro e he hpe
    by_cases hid : e.id = c.id
    · simp [hid]
    · exfalso
      simp only [Function.comp_apply, if_neg hid] at hpe
      have hlen : (comments.filter isBotMarkerComment).length ≤ 1 := by
        rw [← List.countP_eq_length_filter]
        exact hinv
      have he' : e ∈ comments.filter isBotMarkerComment :=
        List.mem_filter.mpr ⟨he, hpe⟩
      have hc' : c ∈ comments.filter isBotMarkerComment :=
        List.mem_filter.mpr ⟨hmem, hpc⟩
      exact hid (congrArg Comment.id (lengthLeOneEq hlen e he' c hc'))

theorem c6_witness :
    (publishResult [userC, botC] 9 "Bot" 42 "new feedback").countP
      isBotMarkerComment ≤ 1 :=
  c6_at_most_one_bot_comment [userC, botC] 9 "Bot" 42 "new feedback"
    (by decide) (by decide)

end GptReview
